import Mathlib

/-!
Shallow embedding of `src/app/models.py` (nutri-scan): the SQLModel entity
declarations (FoodItem, Barcode, ScanHistory, NutritionProfile), the
non-persistent request/response schemas (FoodItemCreate, FoodItemUpdate,
BarcodeCreate, ScanResult, NutritionSummary, HealthScore), the validation
semantics of their declared field constraints (max_length, required-ness,
enum membership), and spec-modelled persistence operations (insert with
uniqueness and referential-integrity enforcement, barcode scan lookup).

Python `Decimal` is embedded as an exact coefficient/exponent pair so that
structural equality preserves decimal precision; `datetime` is embedded as
a `Nat` timestamp, with "current UTC time" passed explicitly as a `now`
parameter.
-/

namespace NutriScan

/-- Exact decimal number, value = coeff * 10 ^ exp.  Embeds Python
`decimal.Decimal`: structural equality distinguishes representations of
different precision (e.g. 25.0 as ⟨250, -1⟩ vs 25 as ⟨25, 0⟩). -/
structure Decimal where
  coeff : Int
  exp : Int
deriving DecidableEq, Repr

/-- Embeds `class NutriScore(str, Enum)` with members A..E. -/
inductive NutriScore
  | A
  | B
  | C
  | D
  | E
deriving DecidableEq, Repr

/-- The string value of each `NutriScore` member, as declared in the source. -/
def NutriScore.value : NutriScore → String
  | .A => "A"
  | .B => "B"
  | .C => "C"
  | .D => "D"
  | .E => "E"

/-- Parsing a raw string into a `NutriScore`, as enum-membership validation
does: exactly the five declared values are accepted. -/
def NutriScore.ofString (s : String) : Option NutriScore :=
  if s = "A" then some .A
  else if s = "B" then some .B
  else if s = "C" then some .C
  else if s = "D" then some .D
  else if s = "E" then some .E
  else none

/-- Embeds `class HealthAssessment(str, Enum)` with its three members. -/
inductive HealthAssessment
  | GOOD
  | MODERATE
  | NOT_RECOMMENDED
deriving DecidableEq, Repr

/-- The string value of each `HealthAssessment` member, as declared. -/
def HealthAssessment.value : HealthAssessment → String
  | .GOOD => "Good for health"
  | .MODERATE => "Moderate"
  | .NOT_RECOMMENDED => "Not recommended"

/-- Parsing a raw string into a `HealthAssessment`: exactly the three
declared values are accepted. -/
def HealthAssessment.ofString (s : String) : Option HealthAssessment :=
  if s = "Good for health" then some .GOOD
  else if s = "Moderate" then some .MODERATE
  else if s = "Not recommended" then some .NOT_RECOMMENDED
  else none

/-- Validation error kinds surfaced by structural validation, each naming
the offending field (spec §7 taxonomy (a)). -/
inductive ValidationError
  | maxLengthExceeded (field : String)
  | missingRequired (field : String)
  | unrecognizedEnum (field : String)
deriving DecidableEq, Repr

/-- Validation of a required string field declared with `max_length`. -/
def checkMaxLength (field : String) (maxLen : Nat) (s : String) : List ValidationError :=
  if s.length ≤ maxLen then [] else [ValidationError.maxLengthExceeded field]

/-- Validation of an optional string field declared with `max_length`. -/
def checkOptMaxLength (field : String) (maxLen : Nat) : Option String → List ValidationError
  | none => []
  | some s => checkMaxLength field maxLen s

/-- Validation of an optional enum-typed field given as a raw string:
an absent field passes, a present one must parse to a member. -/
def checkEnum {α : Type} (field : String) (parse : String → Option α) :
    Option String → List ValidationError
  | none => []
  | some s =>
    match parse s with
    | some _ => []
    | none => [ValidationError.unrecognizedEnum field]

/-- Embeds the persistent `FoodItem` table row (`table=True`).  The primary
key `id` is the value assigned at insertion; `datetime` fields are `Nat`
timestamps. -/
structure FoodItem where
  id : Nat
  name : String
  brand : Option String := none
  description : Option String := none
  energy_kj : Option Decimal := none
  energy_kcal : Option Decimal := none
  fat : Option Decimal := none
  saturated_fat : Option Decimal := none
  carbohydrates : Option Decimal := none
  sugars : Option Decimal := none
  fiber : Option Decimal := none
  protein : Option Decimal := none
  salt : Option Decimal := none
  sodium : Option Decimal := none
  nutri_score : Option NutriScore := none
  health_assessment : Option HealthAssessment := none
  ingredients : Option (List String) := none
  allergens : Option (List String) := none
  categories : Option (List String) := none
  created_at : Nat
  updated_at : Nat
deriving DecidableEq, Repr

/-- Embeds the persistent `Barcode` table row: `code` is declared
`unique=True, max_length=50`, `food_item_id` is a foreign key into
`food_items.id`. -/
structure Barcode where
  id : Nat
  code : String
  barcode_type : String
  food_item_id : Nat
  created_at : Nat
deriving DecidableEq, Repr

/-- Embeds the persistent `ScanHistory` table row: `food_item_id` is a
foreign key into `food_items.id`. -/
structure ScanHistory where
  id : Nat
  food_item_id : Nat
  barcode_scanned : String
  scan_timestamp : Nat
  user_agent : Option String := none
  ip_address : Option String := none
deriving DecidableEq, Repr

/-- Embeds the persistent `NutritionProfile` table row.  The JSON-typed
`nutri_score_thresholds` mapping is embedded as an association list of
string keys to decimal thresholds. -/
structure NutritionProfile where
  id : Nat
  name : String
  description : Option String := none
  max_fat_per_100g : Option Decimal := none
  max_saturated_fat_per_100g : Option Decimal := none
  max_sugars_per_100g : Option Decimal := none
  max_salt_per_100g : Option Decimal := none
  min_fiber_per_100g : Option Decimal := none
  min_protein_per_100g : Option Decimal := none
  nutri_score_thresholds : Option (List (String × Decimal)) := none
  created_at : Nat
  updated_at : Nat
deriving DecidableEq, Repr

/-- Embeds the non-persistent `FoodItemCreate` schema: `name` is required,
every other field defaults to `None`. -/
structure FoodItemCreate where
  name : String
  brand : Option String := none
  description : Option String := none
  energy_kj : Option Decimal := none
  energy_kcal : Option Decimal := none
  fat : Option Decimal := none
  saturated_fat : Option Decimal := none
  carbohydrates : Option Decimal := none
  sugars : Option Decimal := none
  fiber : Option Decimal := none
  protein : Option Decimal := none
  salt : Option Decimal := none
  sodium : Option Decimal := none
  nutri_score : Option NutriScore := none
  health_assessment : Option HealthAssessment := none
  ingredients : Option (List String) := none
  allergens : Option (List String) := none
  categories : Option (List String) := none
deriving DecidableEq, Repr

/-- Embeds the non-persistent `FoodItemUpdate` schema: every field,
including `name`, defaults to `None`. -/
structure FoodItemUpdate where
  name : Option String := none
  brand : Option String := none
  description : Option String := none
  energy_kj : Option Decimal := none
  energy_kcal : Option Decimal := none
  fat : Option Decimal := none
  saturated_fat : Option Decimal := none
  carbohydrates : Option Decimal := none
  sugars : Option Decimal := none
  fiber : Option Decimal := none
  protein : Option Decimal := none
  salt : Option Decimal := none
  sodium : Option Decimal := none
  nutri_score : Option NutriScore := none
  health_assessment : Option HealthAssessment := none
  ingredients : Option (List String) := none
  allergens : Option (List String) := none
  categories : Option (List String) := none
deriving DecidableEq, Repr

/-- Embeds the non-persistent `BarcodeCreate` schema. -/
structure BarcodeCreate where
  code : String
  barcode_type : String
  food_item_id : Nat
deriving DecidableEq, Repr

/-- Embeds the non-persistent `ScanResult` schema.  The `Dict[str, Any]`
`food_item` snapshot is embedded as an optional `FoodItem` record. -/
structure ScanResult where
  barcode : String
  found : Bool
  food_item : Option FoodItem := none
  nutri_score : Option NutriScore := none
  health_assessment : Option HealthAssessment := none
  scan_timestamp : Nat
deriving DecidableEq, Repr

/-- Embeds the non-persistent `NutritionSummary` schema. -/
structure NutritionSummary where
  energy_kcal : Option Decimal := none
  fat : Option Decimal := none
  saturated_fat : Option Decimal := none
  carbohydrates : Option Decimal := none
  sugars : Option Decimal := none
  fiber : Option Decimal := none
  protein : Option Decimal := none
  salt : Option Decimal := none
deriving DecidableEq, Repr

/-- Embeds the non-persistent `HealthScore` schema. -/
structure HealthScore where
  nutri_score : NutriScore
  health_assessment : HealthAssessment
  score_factors : List (String × Decimal)
  recommendations : List String
deriving DecidableEq, Repr

/-- Structural validation of a `FoodItem` record against its declared
constraints: `name` max_length 255, `brand` max_length 255, `description`
max_length 1000.  No other field of the model declares a constraint. -/
def validateFoodItem (f : FoodItem) : List ValidationError :=
  checkMaxLength "name" 255 f.name
    ++ checkOptMaxLength "brand" 255 f.brand
    ++ checkOptMaxLength "description" 1000 f.description

/-- Structural validation of a `FoodItemCreate` value against its declared
constraints (same max_length declarations as `FoodItem`). -/
def validateFoodItemCreate (c : FoodItemCreate) : List ValidationError :=
  checkMaxLength "name" 255 c.name
    ++ checkOptMaxLength "brand" 255 c.brand
    ++ checkOptMaxLength "description" 1000 c.description

/-- Structural validation of a `NutritionProfile` record: `name` max_length
100, `description` max_length 500.  The threshold decimals declare no
constraint. -/
def validateNutritionProfile (p : NutritionProfile) : List ValidationError :=
  checkMaxLength "name" 100 p.name
    ++ checkOptMaxLength "description" 500 p.description

/-- Structural validation of a `ScanResult` value: the source declares no
max_length, enum-string or cross-field constraint on `ScanResult`, so
validation beyond the field types (already enforced by the record type)
checks nothing. -/
def validateScanResult (_ : ScanResult) : List ValidationError := []

/-- Raw (pre-validation) input for `FoodItemCreate`: every field may be
absent, enum fields arrive as raw strings.  Validation decides which
absences and values are rejected. -/
structure FoodItemCreateInput where
  name : Option String := none
  brand : Option String := none
  description : Option String := none
  energy_kj : Option Decimal := none
  energy_kcal : Option Decimal := none
  fat : Option Decimal := none
  saturated_fat : Option Decimal := none
  carbohydrates : Option Decimal := none
  sugars : Option Decimal := none
  fiber : Option Decimal := none
  protein : Option Decimal := none
  salt : Option Decimal := none
  sodium : Option Decimal := none
  nutri_score : Option String := none
  health_assessment : Option String := none
  ingredients : Option (List String) := none
  allergens : Option (List String) := none
  categories : Option (List String) := none
deriving DecidableEq, Repr

/-- Raw (pre-validation) input for `FoodItemUpdate`: identical shape to
`FoodItemCreateInput`; the difference is in validation (`name` optional). -/
structure FoodItemUpdateInput where
  name : Option String := none
  brand : Option String := none
  description : Option String := none
  energy_kj : Option Decimal := none
  energy_kcal : Option Decimal := none
  fat : Option Decimal := none
  saturated_fat : Option Decimal := none
  carbohydrates : Option Decimal := none
  sugars : Option Decimal := none
  fiber : Option Decimal := none
  protein : Option Decimal := none
  salt : Option Decimal := none
  sodium : Option Decimal := none
  nutri_score : Option String := none
  health_assessment : Option String := none
  ingredients : Option (List String) := none
  allergens : Option (List String) := none
  categories : Option (List String) := none
deriving DecidableEq, Repr

/-- Validation of raw `FoodItemCreate` input: `name` is required (missing
`name` is a distinct error) and capped at 255; `brand`/`description` are
optional with max_length 255/1000; enum fields must parse if present. -/
def validateFoodItemCreateInput (i : FoodItemCreateInput) : List ValidationError :=
  (match i.name with
    | none => [ValidationError.missingRequired "name"]
    | some s => checkMaxLength "name" 255 s)
    ++ checkOptMaxLength "brand" 255 i.brand
    ++ checkOptMaxLength "description" 1000 i.description
    ++ checkEnum "nutri_score" NutriScore.ofString i.nutri_score
    ++ checkEnum "health_assessment" HealthAssessment.ofString i.health_assessment

/-- Validation of raw `FoodItemUpdate` input: every field is optional,
present string fields keep their max_length caps and enum fields must
parse. -/
def validateFoodItemUpdateInput (i : FoodItemUpdateInput) : List ValidationError :=
  checkOptMaxLength "name" 255 i.name
    ++ checkOptMaxLength "brand" 255 i.brand
    ++ checkOptMaxLength "description" 1000 i.description
    ++ checkEnum "nutri_score" NutriScore.ofString i.nutri_score
    ++ checkEnum "health_assessment" HealthAssessment.ofString i.health_assessment

/-- Construction of a `FoodItem` row from a validated `FoodItemCreate`,
embedding `default_factory=datetime.utcnow`: a timestamp field left
unsupplied (`none`) defaults to `now`, the current UTC time at the moment
of creation. -/
def mkFoodItem (i : Nat) (c : FoodItemCreate) (createdAt updatedAt : Option Nat)
    (now : Nat) : FoodItem :=
  { id := i, name := c.name, brand := c.brand, description := c.description,
    energy_kj := c.energy_kj, energy_kcal := c.energy_kcal, fat := c.fat,
    saturated_fat := c.saturated_fat, carbohydrates := c.carbohydrates,
    sugars := c.sugars, fiber := c.fiber, protein := c.protein,
    salt := c.salt, sodium := c.sodium, nutri_score := c.nutri_score,
    health_assessment := c.health_assessment, ingredients := c.ingredients,
    allergens := c.allergens, categories := c.categories,
    created_at := createdAt.getD now, updated_at := updatedAt.getD now }

/-- Construction of a `Barcode` row from a `BarcodeCreate`, with
`created_at` defaulting to the current UTC time when unsupplied. -/
def mkBarcode (i : Nat) (c : BarcodeCreate) (createdAt : Option Nat)
    (now : Nat) : Barcode :=
  { id := i, code := c.code, barcode_type := c.barcode_type,
    food_item_id := c.food_item_id, created_at := createdAt.getD now }

/-- Construction of a `ScanHistory` row, with `scan_timestamp` defaulting
to the current UTC time when unsupplied. -/
def mkScanHistory (i foodItemId : Nat) (scanned : String)
    (scanTimestamp : Option Nat) (userAgent ipAddress : Option String)
    (now : Nat) : ScanHistory :=
  { id := i, food_item_id := foodItemId, barcode_scanned := scanned,
    scan_timestamp := scanTimestamp.getD now, user_agent := userAgent,
    ip_address := ipAddress }

/-- Construction of a `NutritionProfile` row, with `created_at` and
`updated_at` defaulting to the current UTC time when unsupplied. -/
def mkNutritionProfile (i : Nat) (nm : String) (descr : Option String)
    (maxFat maxSatFat maxSugars maxSalt minFiber minProtein : Option Decimal)
    (thresholds : Option (List (String × Decimal)))
    (createdAt updatedAt : Option Nat) (now : Nat) : NutritionProfile :=
  { id := i, name := nm, description := descr,
    max_fat_per_100g := maxFat, max_saturated_fat_per_100g := maxSatFat,
    max_sugars_per_100g := maxSugars, max_salt_per_100g := maxSalt,
    min_fiber_per_100g := minFiber, min_protein_per_100g := minProtein,
    nutri_score_thresholds := thresholds,
    created_at := createdAt.getD now, updated_at := updatedAt.getD now }

/-- Modelled from the spec: the persistent table state maintained by the
external persistence component (not present in the source, which declares
only the row shapes):  the `food_items`, `barcodes` and `scan_history`
tables. -/
structure Store where
  food_items : List FoodItem
  barcodes : List Barcode
  scan_history : List ScanHistory
deriving DecidableEq, Repr

/-- The empty store: no rows in any table. -/
def Store.empty : Store :=
  { food_items := [], barcodes := [], scan_history := [] }

/-- Whether a `FoodItem` row with the given id is stored. -/
def Store.hasFoodItem (st : Store) (i : Nat) : Bool :=
  st.food_items.any fun f => f.id = i

/-- Whether some stored `Barcode` row carries the given code. -/
def Store.hasBarcodeCode (st : Store) (c : String) : Bool :=
  st.barcodes.any fun b => b.code = c

/-- Reading a stored `FoodItem` row back by id. -/
def getFoodItem (st : Store) (i : Nat) : Option FoodItem :=
  st.food_items.find? fun f => f.id = i

/-- A fresh primary-key id, strictly greater than every stored
`food_items` id. -/
def nextFoodItemId (st : Store) : Nat :=
  (st.food_items.map FoodItem.id).foldr max 0 + 1

/-- Modelled from the spec: the error kinds reported by the persistence
component (spec §7 (b) and (c)); the enforcement logic is not in the
source, which only declares `unique=True` and `foreign_key`. -/
inductive DBError
  | uniquenessViolation
  | referentialIntegrityError
deriving DecidableEq, Repr

/-- Modelled from the spec: the constraint violations of inserting a
`Barcode` row — a duplicate of the unique `code`, and a `food_item_id`
referencing no stored `FoodItem`. -/
def barcodeInsertErrors (st : Store) (b : Barcode) : List DBError :=
  (if st.hasBarcodeCode b.code then [DBError.uniquenessViolation] else [])
    ++ (if st.hasFoodItem b.food_item_id then [] else [DBError.referentialIntegrityError])

/-- Modelled from the spec: inserting a `Barcode` row.  The insert is
rejected before the write when any constraint is violated, so a failed
insert leaves the table state unchanged. -/
def insertBarcode (st : Store) (b : Barcode) : Except (List DBError) Store :=
  if (barcodeInsertErrors st b).isEmpty then
    Except.ok { st with barcodes := b :: st.barcodes }
  else
    Except.error (barcodeInsertErrors st b)

/-- Modelled from the spec: the constraint violations of inserting a
`ScanHistory` row — a `food_item_id` referencing no stored `FoodItem`. -/
def scanHistoryInsertErrors (st : Store) (s : ScanHistory) : List DBError :=
  if st.hasFoodItem s.food_item_id then [] else [DBError.referentialIntegrityError]

/-- Modelled from the spec: inserting a `ScanHistory` row, rejected before
the write on a dangling foreign key. -/
def insertScanHistory (st : Store) (s : ScanHistory) : Except (List DBError) Store :=
  if (scanHistoryInsertErrors st s).isEmpty then
    Except.ok { st with scan_history := s :: st.scan_history }
  else
    Except.error (scanHistoryInsertErrors st s)

/-- Modelled from the spec: persisting a validated `FoodItemCreate` as a
`FoodItem` row under a fresh id with defaulted timestamps; returns the new
store and the assigned id. -/
def insertFoodItem (st : Store) (now : Nat) (c : FoodItemCreate) : Store × Nat :=
  ({ st with food_items := mkFoodItem (nextFoodItemId st) c none none now :: st.food_items },
    nextFoodItemId st)

/-- The store a caller holds after attempting a `Barcode` insert: the new
store on success, the unchanged old store on failure. -/
def tryInsertBarcode (st : Store) (b : Barcode) : Store :=
  match insertBarcode st b with
  | Except.ok st' => st'
  | Except.error _ => st

/-- Modelled from the spec: the store states reachable through the write
path — starting empty and inserting `FoodItem`, `Barcode` and
`ScanHistory` rows through the constraint-checking inserts. -/
inductive Reachable : Store → Prop
  | empty : Reachable Store.empty
  | foodItem (st : Store) (now : Nat) (c : FoodItemCreate) :
      Reachable st → Reachable (insertFoodItem st now c).1
  | barcode (st : Store) (b : Barcode) (st' : Store) :
      Reachable st → insertBarcode st b = Except.ok st' → Reachable st'
  | scan (st : Store) (s : ScanHistory) (st' : Store) :
      Reachable st → insertScanHistory st s = Except.ok st' → Reachable st'

/-- Referential integrity of a store state: every stored `Barcode` and
`ScanHistory` row references a stored `FoodItem` id. -/
def Store.refsOk (st : Store) : Prop :=
  (∀ b ∈ st.barcodes, st.hasFoodItem b.food_item_id = true) ∧
    (∀ s ∈ st.scan_history, st.hasFoodItem s.food_item_id = true)

/-- Modelled from the spec: scanning a barcode — look the code up in the
`barcodes` table; on a miss return a not-found `ScanResult`, on a hit
resolve the `FoodItem` and embed its snapshot and scores. -/
def scanBarcode (st : Store) (code : String) (now : Nat) : ScanResult :=
  match st.barcodes.find? fun b => b.code = code with
  | none =>
    { barcode := code, found := false, food_item := none,
      nutri_score := none, health_assessment := none, scan_timestamp := now }
  | some b =>
    match getFoodItem st b.food_item_id with
    | none =>
      { barcode := code, found := true, food_item := none,
        nutri_score := none, health_assessment := none, scan_timestamp := now }
    | some f =>
      { barcode := code, found := true, food_item := some f,
        nutri_score := f.nutri_score, health_assessment := f.health_assessment,
        scan_timestamp := now }

/-- A sample stored food item used in concrete witnesses. -/
def sampleFoodItem : FoodItem :=
  { id := 1, name := "Milk", created_at := 0, updated_at := 0 }

/-- A sample stored barcode bound to `sampleFoodItem`. -/
def sampleBarcode : Barcode :=
  { id := 1, code := "5901234123457", barcode_type := "EAN13", food_item_id := 1,
    created_at := 0 }

/-- A sample store holding one food item and its barcode. -/
def sampleStore : Store :=
  { food_items := [sampleFoodItem], barcodes := [sampleBarcode], scan_history := [] }

/-- A barcode row whose foreign key references no stored food item. -/
def danglingBarcode : Barcode :=
  { id := 2, code := "0000", barcode_type := "EAN13", food_item_id := 99, created_at := 0 }

/-- A scan-history row whose foreign key references no stored food item. -/
def danglingScan : ScanHistory :=
  { id := 1, food_item_id := 99, barcode_scanned := "0000", scan_timestamp := 0 }

lemma hasFoodItem_cons_of (st : Store) (f : FoodItem) (i : Nat)
    (h : st.hasFoodItem i = true) :
    Store.hasFoodItem { st with food_items := f :: st.food_items } i = true := by
  simp only [Store.hasFoodItem] at h ⊢
  simp [List.any_cons, h]

lemma insertBarcode_ok (st : Store) (b : Barcode) (st' : Store)
    (h : insertBarcode st b = Except.ok st') :
    st.hasFoodItem b.food_item_id = true ∧
      st' = { st with barcodes := b :: st.barcodes } := by
  cases hf : st.hasFoodItem b.food_item_id with
  | false =>
    exfalso
    cases hc : st.hasBarcodeCode b.code with
    | false =>
      unfold insertBarcode at h
      simp [barcodeInsertErrors, hc, hf] at h
    | true =>
      unfold insertBarcode at h
      simp [barcodeInsertErrors, hc, hf] at h
  | true =>
    refine ⟨rfl, ?_⟩
    unfold insertBarcode at h
    split at h
    · injection h with h1
      exact h1.symm
    · exact Except.noConfusion h

lemma insertScanHistory_ok (st : Store) (s : ScanHistory) (st' : Store)
    (h : insertScanHistory st s = Except.ok st') :
    st.hasFoodItem s.food_item_id = true ∧
      st' = { st with scan_history := s :: st.scan_history } := by
  cases hf : st.hasFoodItem s.food_item_id with
  | false =>
    unfold insertScanHistory at h
    simp [scanHistoryInsertErrors, hf] at h
  | true =>
    refine ⟨rfl, ?_⟩
    unfold insertScanHistory at h
    simp [scanHistoryInsertErrors, hf] at h
    exact h.symm

lemma reachable_refsOk (st : Store) (h : Reachable st) : st.refsOk := by
  induction h with
  | empty =>
    exact ⟨by simp [Store.empty], by simp [Store.empty]⟩
  | foodItem st now c hr ih =>
    obtain ⟨ihb, ihs⟩ := ih
    refine ⟨?_, ?_⟩
    · intro b hb
      simp only [insertFoodItem] at hb ⊢
      exact hasFoodItem_cons_of _ _ _ (ihb b hb)
    · intro s hs
      simp only [insertFoodItem] at hs ⊢
      exact hasFoodItem_cons_of _ _ _ (ihs s hs)
  | barcode st b st' hr hok ih =>
    obtain ⟨hf, hst⟩ := insertBarcode_ok st b st' hok
    obtain ⟨ihb, ihs⟩ := ih
    subst hst
    refine ⟨?_, ?_⟩
    · intro b' hb'
      rcases List.mem_cons.mp hb' with h1 | h2
      · subst h1
        exact hf
      · exact ihb b' h2
    · intro s hs
      exact ihs s hs
  | scan st s st' hr hok ih =>
    obtain ⟨hf, hst⟩ := insertScanHistory_ok st s st' hok
    obtain ⟨ihb, ihs⟩ := ih
    subst hst
    refine ⟨?_, ?_⟩
    · intro b' hb'
      exact ihb b' hb'
    · intro s' hs'
      rcases List.mem_cons.mp hs' with h1 | h2
      · subst h1
        exact hf
      · exact ihs s' h2

/-- C1: for every Barcode table state, the code field is unique: in any
state already containing a Barcode with the given code, inserting a second
Barcode with that same code fails with a UniquenessViolation, and the
table state is unchanged by the failed insert. -/
theorem barcode_code_unique (st : Store) (b : Barcode)
    (h : st.hasBarcodeCode b.code = true) :
    DBError.uniquenessViolation ∈ barcodeInsertErrors st b ∧
      insertBarcode st b = Except.error (barcodeInsertErrors st b) ∧
      tryInsertBarcode st b = st := by
  have he : barcodeInsertErrors st b =
      DBError.uniquenessViolation ::
        (if st.hasFoodItem b.food_item_id then []
          else [DBError.referentialIntegrityError]) := by
    simp [barcodeInsertErrors, h]
  refine ⟨?_, ?_, ?_⟩
  · rw [he]
    exact List.mem_cons_self _ _
  · simp [insertBarcode, he]
  · simp [tryInsertBarcode, insertBarcode, he]

/-- Witness for C1: a duplicate insert of `sampleBarcode` into
`sampleStore` (which already carries its code) is flagged. -/
theorem barcode_code_unique_witness :
    sampleStore.hasBarcodeCode sampleBarcode.code = true ∧
      DBError.uniquenessViolation ∈ barcodeInsertErrors sampleStore sampleBarcode ∧
      tryInsertBarcode sampleStore sampleBarcode = sampleStore :=
  ⟨by decide,
    (barcode_code_unique sampleStore sampleBarcode (by decide)).1,
    (barcode_code_unique sampleStore sampleBarcode (by decide)).2.2⟩

/-- C2: inserting a Barcode or ScanHistory row whose food_item_id matches
no stored FoodItem fails with a ReferentialIntegrityError before the
write, and every reachable store state has every Barcode and ScanHistory
row referencing an existing FoodItem. -/
theorem referential_integrity_enforced :
    (∀ (st : Store) (b : Barcode), st.hasFoodItem b.food_item_id = false →
      DBError.referentialIntegrityError ∈ barcodeInsertErrors st b ∧
        insertBarcode st b = Except.error (barcodeInsertErrors st b)) ∧
      (∀ (st : Store) (s : ScanHistory), st.hasFoodItem s.food_item_id = false →
        DBError.referentialIntegrityError ∈ scanHistoryInsertErrors st s ∧
          insertScanHistory st s = Except.error (scanHistoryInsertErrors st s)) ∧
      (∀ st : Store, Reachable st → st.refsOk) := by
  refine ⟨?_, ?_, fun st h => reachable_refsOk st h⟩
  · intro st b hf
    refine ⟨?_, ?_⟩ <;> cases hc : st.hasBarcodeCode b.code <;>
      simp [insertBarcode, barcodeInsertErrors, hc, hf]
  · intro st s hf
    refine ⟨?_, ?_⟩
    · simp [scanHistoryInsertErrors, hf]
    · simp [insertScanHistory, scanHistoryInsertErrors, hf]

/-- Witness for C2: dangling inserts into the empty store are flagged, and
the empty store (reachable) satisfies referential integrity. -/
theorem referential_integrity_enforced_witness :
    Store.hasFoodItem Store.empty danglingBarcode.food_item_id = false ∧
      DBError.referentialIntegrityError ∈ barcodeInsertErrors Store.empty danglingBarcode ∧
      DBError.referentialIntegrityError ∈ scanHistoryInsertErrors Store.empty danglingScan ∧
      Store.refsOk Store.empty :=
  ⟨rfl,
    (referential_integrity_enforced.1 Store.empty danglingBarcode rfl).1,
    (referential_integrity_enforced.2.1 Store.empty danglingScan rfl).1,
    referential_integrity_enforced.2.2 Store.empty Reachable.empty⟩

/-- C3: a present nutri_score is one of exactly A,B,C,D,E and a present
health_assessment one of exactly the three declared phrases; any other
raw value is rejected by validation as an unrecognized enum value. -/
theorem nutri_enum_membership :
    (∀ s : String, (NutriScore.ofString s).isSome = true ↔
      s = "A" ∨ s = "B" ∨ s = "C" ∨ s = "D" ∨ s = "E") ∧
      (∀ s : String, (HealthAssessment.ofString s).isSome = true ↔
        s = "Good for health" ∨ s = "Moderate" ∨ s = "Not recommended") ∧
      (∀ s : String, NutriScore.ofString s = none →
        checkEnum "nutri_score" NutriScore.ofString (some s) =
          [ValidationError.unrecognizedEnum "nutri_score"]) ∧
      (∀ s : String, HealthAssessment.ofString s = none →
        checkEnum "health_assessment" HealthAssessment.ofString (some s) =
          [ValidationError.unrecognizedEnum "health_assessment"]) ∧
      (∀ v : NutriScore, v = .A ∨ v = .B ∨ v = .C ∨ v = .D ∨ v = .E) ∧
      (∀ a : HealthAssessment, a = .GOOD ∨ a = .MODERATE ∨ a = .NOT_RECOMMENDED) := by
  refine ⟨?_, ?_, ?_, ?_, ?_, ?_⟩
  · intro s
    unfold NutriScore.ofString
    split_ifs with h1 h2 h3 h4 h5 <;> simp_all
  · intro s
    unfold HealthAssessment.ofString
    split_ifs with h1 h2 h3 <;> simp_all
  · intro s h
    simp [checkEnum, h]
  · intro s h
    simp [checkEnum, h]
  · intro v
    cases v <;> simp
  · intro a
    cases a <;> simp

/-- Witness for C3: the raw values "F" and "Bad" are rejected as
unrecognized enum values. -/
theorem nutri_enum_membership_witness :
    NutriScore.ofString "F" = none ∧
      checkEnum "nutri_score" NutriScore.ofString (some "F") =
        [ValidationError.unrecognizedEnum "nutri_score"] ∧
      checkEnum "health_assessment" HealthAssessment.ofString (some "Bad") =
        [ValidationError.unrecognizedEnum "health_assessment"] :=
  ⟨rfl, nutri_enum_membership.2.2.1 "F" rfl, nutri_enum_membership.2.2.2.1 "Bad" rfl⟩

/-- C4: persisting a fully populated FoodItemCreate and reading the stored
FoodItem back yields field-for-field equality on every shared field, with
exact decimal representations preserved. -/
theorem food_item_round_trip (st : Store) (now : Nat) (c : FoodItemCreate) :
    ∃ f : FoodItem,
      getFoodItem (insertFoodItem st now c).1 (insertFoodItem st now c).2 = some f ∧
      f.name = c.name ∧ f.brand = c.brand ∧ f.description = c.description ∧
      f.energy_kj = c.energy_kj ∧ f.energy_kcal = c.energy_kcal ∧ f.fat = c.fat ∧
      f.saturated_fat = c.saturated_fat ∧ f.carbohydrates = c.carbohydrates ∧
      f.sugars = c.sugars ∧ f.fiber = c.fiber ∧ f.protein = c.protein ∧
      f.salt = c.salt ∧ f.sodium = c.sodium ∧ f.nutri_score = c.nutri_score ∧
      f.health_assessment = c.health_assessment ∧ f.ingredients = c.ingredients ∧
      f.allergens = c.allergens ∧ f.categories = c.categories := by
  refine ⟨mkFoodItem (nextFoodItemId st) c none none now, ?_, rfl, rfl, rfl, rfl, rfl,
    rfl, rfl, rfl, rfl, rfl, rfl, rfl, rfl, rfl, rfl, rfl, rfl, rfl⟩
  simp [getFoodItem, insertFoodItem, List.find?_cons, mkFoodItem]

lemma mem_checkMaxLength_iff (e : ValidationError) (field : String) (n : Nat)
    (s : String) :
    e ∈ checkMaxLength field n s ↔
      e = ValidationError.maxLengthExceeded field ∧ n < s.length := by
  unfold checkMaxLength
  split_ifs with h
  · constructor
    · intro hmem
      exact absurd hmem (List.not_mem_nil e)
    · rintro ⟨-, h2⟩
      omega
  · constructor
    · intro hmem
      exact ⟨List.mem_singleton.mp hmem, by omega⟩
    · rintro ⟨rfl, -⟩
      exact List.mem_singleton.mpr rfl

lemma mem_checkOptMaxLength_iff (e : ValidationError) (field : String) (n : Nat)
    (o : Option String) :
    e ∈ checkOptMaxLength field n o ↔
      ∃ s, o = some s ∧ e = ValidationError.maxLengthExceeded field ∧ n < s.length := by
  cases o with
  | none => simp [checkOptMaxLength]
  | some s => simp [checkOptMaxLength, mem_checkMaxLength_iff]

/-- A 255-character name, exactly at the declared max_length. -/
def name255 : String := String.mk (List.replicate 255 'a')

/-- A 256-character name, one past the declared max_length. -/
def name256 : String := String.mk (List.replicate 256 'a')

set_option maxRecDepth 8192 in
/-- C5: validation accepts a 255-character name and rejects a
256-character one with an error naming the field; name validation fails
iff the length exceeds 255, both on FoodItemCreate and on FoodItem. -/
theorem name_length_boundary :
    validateFoodItemCreate { name := name255 } = [] ∧
      validateFoodItemCreate { name := name256 } =
        [ValidationError.maxLengthExceeded "name"] ∧
      (∀ c : FoodItemCreate,
        ValidationError.maxLengthExceeded "name" ∈ validateFoodItemCreate c ↔
          255 < c.name.length) ∧
      (∀ f : FoodItem,
        ValidationError.maxLengthExceeded "name" ∈ validateFoodItem f ↔
          255 < f.name.length) := by
  refine ⟨by decide, by decide, ?_, ?_⟩
  · intro c
    simp [validateFoodItemCreate, mem_checkMaxLength_iff, mem_checkOptMaxLength_iff]
  · intro f
    simp [validateFoodItem, mem_checkMaxLength_iff, mem_checkOptMaxLength_iff]

/-- C6: in FoodItemCreate the name is required (a missing name is rejected
as a missing required field) and every other field is optional, while in
FoodItemUpdate every field including name is optional (the empty update
input passes validation). -/
theorem create_requires_name :
    (∀ i : FoodItemCreateInput, i.name = none →
      ValidationError.missingRequired "name" ∈ validateFoodItemCreateInput i) ∧
      validateFoodItemCreateInput { name := some "Milk" } = [] ∧
      validateFoodItemCreateInput {} = [ValidationError.missingRequired "name"] ∧
      validateFoodItemUpdateInput {} = [] := by
  refine ⟨?_, by decide, by decide, by decide⟩
  intro i h
  simp [validateFoodItemCreateInput, h]

/-- Witness for C6: the all-absent create input has no name and is flagged
with the missing-required-field error. -/
theorem create_requires_name_witness :
    ({} : FoodItemCreateInput).name = none ∧
      ValidationError.missingRequired "name" ∈ validateFoodItemCreateInput {} :=
  ⟨rfl, create_requires_name.1 {} rfl⟩

/-- C7: in every constructed FoodItem, Barcode, ScanHistory and
NutritionProfile, an unsupplied timestamp field defaults to the current
UTC time `now` at the moment of creation — it equals `now` for every
`now`, hence is no fixed constant. -/
theorem timestamps_default_to_now :
    (∀ (i : Nat) (c : FoodItemCreate) (now : Nat),
      (mkFoodItem i c none none now).created_at = now ∧
        (mkFoodItem i c none none now).updated_at = now) ∧
      (∀ (i : Nat) (bc : BarcodeCreate) (now : Nat),
        (mkBarcode i bc none now).created_at = now) ∧
      (∀ (i fid : Nat) (code : String) (ua ip : Option String) (now : Nat),
        (mkScanHistory i fid code none ua ip now).scan_timestamp = now) ∧
      (∀ (i : Nat) (nm : String) (now : Nat),
        (mkNutritionProfile i nm none none none none none none none none none none
            now).created_at = now ∧
          (mkNutritionProfile i nm none none none none none none none none none none
            now).updated_at = now) ∧
      (∀ n1 n2 : Nat,
        (mkFoodItem 0 { name := "x" } none none n1).created_at =
            (mkFoodItem 0 { name := "x" } none none n2).created_at ↔ n1 = n2) :=
  ⟨fun _ _ _ => ⟨rfl, rfl⟩, fun _ _ _ => rfl, fun _ _ _ _ _ _ => rfl,
    fun _ _ _ => ⟨rfl, rfl⟩, fun _ _ => Iff.rfl⟩

/-- C8: no non-negativity or range constraint is enforced on nutrient
quantities or thresholds: any decimal values, negative ones included, in
all nutrient and threshold fields pass validation of FoodItemCreate,
FoodItem and NutritionProfile. -/
theorem no_nonnegativity_constraint :
    (∀ d1 d2 d3 d4 d5 d6 d7 d8 d9 d10 : Decimal,
      validateFoodItemCreate
        { name := "x", energy_kj := some d1, energy_kcal := some d2, fat := some d3,
          saturated_fat := some d4, carbohydrates := some d5, sugars := some d6,
          fiber := some d7, protein := some d8, salt := some d9,
          sodium := some d10 } = []) ∧
      (∀ d1 d2 d3 d4 d5 d6 d7 d8 d9 d10 : Decimal,
        validateFoodItem
          { id := 0, name := "x", energy_kj := some d1, energy_kcal := some d2,
            fat := some d3, saturated_fat := some d4, carbohydrates := some d5,
            sugars := some d6, fiber := some d7, protein := some d8, salt := some d9,
            sodium := some d10, created_at := 0, updated_at := 0 } = []) ∧
      (∀ t1 t2 t3 t4 t5 t6 : Decimal,
        validateNutritionProfile
          { id := 0, name := "p", max_fat_per_100g := some t1,
            max_saturated_fat_per_100g := some t2, max_sugars_per_100g := some t3,
            max_salt_per_100g := some t4, min_fiber_per_100g := some t5,
            min_protein_per_100g := some t6, created_at := 0, updated_at := 0 } = []) ∧
      validateFoodItemCreate { name := "x", sugars := some ⟨-250, -1⟩ } = [] :=
  ⟨fun _ _ _ _ _ _ _ _ _ _ => rfl, fun _ _ _ _ _ _ _ _ _ _ => rfl,
    fun _ _ _ _ _ _ => rfl, rfl⟩

/-- C9: scanning barcode "5901234123457" against any store whose barcodes
table holds no record with that code yields a ScanResult with that
barcode, found = false and no food item. -/
theorem scan_miss (st : Store) (now : Nat)
    (h : st.hasBarcodeCode "5901234123457" = false) :
    scanBarcode st "5901234123457" now =
      { barcode := "5901234123457", found := false, food_item := none,
        nutri_score := none, health_assessment := none, scan_timestamp := now } := by
  have hf : (st.barcodes.find? fun b => b.code = "5901234123457") = none := by
    rw [List.find?_eq_none]
    simp only [Store.hasBarcodeCode, List.any_eq_false] at h
    exact h
  unfold scanBarcode
  rw [hf]

/-- Witness for C9: scanning the empty store misses. -/
theorem scan_miss_witness :
    Store.hasBarcodeCode Store.empty "5901234123457" = false ∧
      scanBarcode Store.empty "5901234123457" 0 =
        { barcode := "5901234123457", found := false, food_item := none,
          nutri_score := none, health_assessment := none, scan_timestamp := 0 } :=
  ⟨rfl, scan_miss Store.empty 0 rfl⟩

/-- A ScanResult claiming found with no embedded food item. -/
def scanResultFoundWithoutItem : ScanResult :=
  { barcode := "5901234123457", found := true, food_item := none, scan_timestamp := 0 }

/-- A ScanResult claiming not found yet embedding a food item. -/
def scanResultNotFoundWithItem : ScanResult :=
  { barcode := "5901234123457", found := false, food_item := some sampleFoodItem,
    scan_timestamp := 0 }

/-- C10: the ScanResult schema does not couple found to food_item: a value
with found = true and no food item, and a value with found = false and a
food item present, both pass schema validation. -/
theorem scan_result_uncoupled :
    scanResultFoundWithoutItem.found = true ∧
      scanResultFoundWithoutItem.food_item = none ∧
      validateScanResult scanResultFoundWithoutItem = [] ∧
      scanResultNotFoundWithItem.found = false ∧
      scanResultNotFoundWithItem.food_item.isSome = true ∧
      validateScanResult scanResultNotFoundWithItem = [] :=
  ⟨rfl, rfl, rfl, rfl, rfl, rfl⟩

end NutriScan
